import Mathlib

/-!
# Verification of the DeepPredict forecasting-and-scoring engine

Shallow embedding of `src/Server/risk_analysis.py` and
`src/Server/ts_forecast.py` in Lean 4, with theorems settling the
specification claims about the composite risk scorer, the prescription
engine, and the HPI forecast engine.

Modelling conventions:
* Python floats are modelled as exact rationals (`ℚ`).  `round(x, 2)` is
  modelled as ideal decimal round-half-to-even (`roundHalfEven`).
* A Python value that may be non-numeric (the scorer is called with
  whatever the UI sends) is modelled by `PyNum`: a rational, `None`, or a
  non-numeric value (e.g. a non-numeric string) on which `float()` raises.
* A raised exception is modelled by `Option.none` / `Except.error`.
* Timestamps are modelled as integer quarter indices (`year*4 + quarter`);
  a quarter-end timestamp corresponds to exactly one index, and
  `date + pd.offsets.QuarterEnd()` on a quarter-end date is `+ 1`.
-/

/-- `np.clip(x, lo, hi)` for `lo ≤ hi`. -/
def npClip (x lo hi : ℚ) : ℚ := if x < lo then lo else if hi < x then hi else x

/-- Kernel-computable floor of a rational. -/
def ratFloor (q : ℚ) : ℤ := q.num / q.den

theorem ratFloor_eq_floor (q : ℚ) : ratFloor q = ⌊q⌋ := Rat.floor_def.symm

/-- Ideal round-half-to-even to an integer, modelling Python/numpy `round`
tie-breaking on the exact rational value. -/
def roundHalfEven (q : ℚ) : ℤ :=
  if q - ratFloor q < 1/2 then ratFloor q
  else if 1/2 < q - ratFloor q then ratFloor q + 1
  else if ratFloor q % 2 = 0 then ratFloor q else ratFloor q + 1

/-- Python `round(q, 2)`: round to two decimal places, ties to even. -/
def pyRound2 (q : ℚ) : ℚ := (roundHalfEven (q * 100) : ℚ) / 100

/-- A Python value in a position where the code expects a number:
either an actual number, `None`, or a value of some other type on which
`float()` raises (e.g. a non-numeric string).  `truthy` records Python
truthiness of that non-numeric value (`""` is falsy, `"abc"` is truthy). -/
inductive PyNum where
  | num (q : ℚ)
  | noneV
  | nonNum (truthy : Bool)
deriving DecidableEq

/-- Python truthiness of a `PyNum` (`0`, `0.0`, `None`, `""`, ... are falsy). -/
def pyTruthy : PyNum → Bool
  | .num q => q != 0
  | .noneV => false
  | .nonNum t => t

/-- Python `v or d` where `d` is a numeric literal default. -/
def pyOr (v : PyNum) (d : ℚ) : PyNum := if pyTruthy v then v else .num d

/-- Python `float(v)`: succeeds exactly on numbers, raises otherwise
(`Option.none` models the exception). -/
def pyFloat : PyNum → Option ℚ
  | .num q => some q
  | .noneV => Option.none
  | .nonNum _ => Option.none

/-- Python `(label or default)` for an optional string argument
(`None` and `""` are falsy). -/
def pyOrStr (l : Option String) (d : String) : String :=
  match l with
  | some s => if s = "" then d else s
  | Option.none => d

/-- ASCII lower-casing of one character, modelling Python `str.lower` on the
ASCII label strings this code receives. -/
def asciiLower (c : Char) : Char :=
  if c.isUpper then Char.ofNat (c.toNat + 32) else c

/-- Python `str.lower()` (ASCII). -/
def strLower (s : String) : String := ⟨s.data.map asciiLower⟩

/-- Python `str.strip()`: drop leading and trailing whitespace. -/
def strTrim (s : String) : String :=
  ⟨((s.data.dropWhile Char.isWhitespace).reverse.dropWhile Char.isWhitespace).reverse⟩

/-- The `debug` breakdown dictionary returned by `analyze_risk`
(`src/Server/risk_analysis.py`, lines 121-131). -/
structure RiskDebug where
  market_risk_score : ℚ
  market_risk_level : ℕ
  sentiment_label : Option String
  sentiment_score : ℚ
  sentiment_numeric_risk : ℚ
  sentiment_risk_level : ℕ
  price_risk_score : ℚ
  weights : ℚ × ℚ × ℚ
  final_raw : ℚ
deriving DecidableEq

/-- The result dictionary of `analyze_risk`. -/
structure RiskAssessment where
  score : ℚ
  level : String
  category : String
  message : String
  debug : RiskDebug
deriving DecidableEq

/-- Body of `analyze_risk` after the four `float(...)` coercions succeeded:
`gr`, `vol`, `loc` are the coerced growth rate, volatility and location
factor, `s_score` is `float(sentiment_score or 50.0)`.  `current_price`
stays un-coerced because its conversion is wrapped in `try/except`
(lines 75-78 of `risk_analysis.py`). -/
def analyzeRiskNum (current_price : PyNum) (gr vol : ℚ)
    (sentiment_label : Option String) (s_score loc : ℚ) : RiskAssessment :=
  -- 1) market component (lines 28-46)
  let gr_pct := gr * 100
  let vol_pct := vol * 100
  let market_component := vol_pct * 1.5 - gr_pct * 0.8
  let adjusted_market := market_component * (1.2 - loc)
  let market_risk_score := npClip adjusted_market 0 100
  let market_risk_level : ℕ :=
    if market_risk_score < 30 then 1 else if market_risk_score < 60 then 2 else 3
  -- 2) sentiment component (lines 51-67)
  let sent := strLower (strTrim (pyOrStr sentiment_label "Neutral"))
  let sentiment_risk_level : ℕ :=
    if sent = "positive" ∧ s_score ≥ 60 then 1
    else if sent = "negative" ∨ s_score < 40 then 3
    else 2
  let sentiment_numeric_risk := npClip (100 - s_score) 0 100
  -- 3) price component (lines 75-84)
  let cp := (pyFloat (pyOr current_price 0)).getD 0
  let price_risk_score := npClip (cp / 200 * 100) 0 100
  -- 4) weighted combination (lines 92-104)
  let final_numeric_raw :=
    market_risk_score * 0.70 + sentiment_numeric_risk * 0.20 + price_risk_score * 0.10
  let final_numeric_score := npClip (pyRound2 final_numeric_raw) 0 100
  -- tiering (lines 107-118)
  let level := if final_numeric_score < 30 then "Low"
    else if final_numeric_score < 60 then "Moderate" else "High"
  let category := if final_numeric_score < 30 then "Stable Market"
    else if final_numeric_score < 60 then "Caution Advised" else "High Risk"
  let message := if final_numeric_score < 30 then
      "Strong signals with low volatility. Good investment conditions."
    else if final_numeric_score < 60 then
      "Some mixed signals. Consider cautious investment."
    else
      "Negative sentiment or high volatility. Avoid large investments."
  ⟨final_numeric_score, level, category, message,
    ⟨market_risk_score, market_risk_level, sentiment_label, s_score,
     sentiment_numeric_risk, sentiment_risk_level, price_risk_score,
     (0.70, 0.20, 0.10), final_numeric_raw⟩⟩

/-- `analyze_risk` (`src/Server/risk_analysis.py`, lines 4-139).
`float(growth_rate)`, `float(volatility)`, `float(location_factor)` and
`float(sentiment_score or 50.0)` are not protected by `try/except`, so a
non-numeric value there raises (modelled by `Option.none`); only
`current_price` is defensively coerced. -/
def analyze_risk (current_price growth_rate volatility : PyNum)
    (sentiment_label : Option String) (sentiment_score location_factor : PyNum) :
    Option RiskAssessment :=
  match pyFloat growth_rate, pyFloat volatility, pyFloat location_factor,
        pyFloat (pyOr sentiment_score 50) with
  | some gr, some vol, some loc, some s =>
      some (analyzeRiskNum current_price gr vol sentiment_label s loc)
  | _, _, _, _ => Option.none

/-- The result of `get_prescription`. -/
structure Prescription where
  action : String
  explanation : String
deriving DecidableEq

/-- `get_prescription` (`src/Server/risk_analysis.py`, lines 142-162).
`growth_rate * 100.0` and the comparison `risk_score < 30` raise on
non-numeric arguments (no defensive coercion here); Python float
formatting inside the f-strings is abstracted by `toString`. -/
def get_prescription (risk_score growth_rate : PyNum) : Option Prescription :=
  match pyFloat growth_rate, pyFloat risk_score with
  | some g, some r =>
      let roi_pct := pyRound2 (g * 100)
      some (if r < 30 ∧ roi_pct > 3 then
        ⟨"Buy", "Low risk and strong expected growth (" ++ toString roi_pct ++ "%)."⟩
      else if r < 60 ∧ roi_pct > 0 then
        ⟨"Hold", "Moderate risk with mild positive growth (" ++ toString roi_pct ++ "%)."⟩
      else if roi_pct < 0 then
        ⟨"Sell", "Negative growth forecast (" ++ toString roi_pct ++ "%). High caution."⟩
      else
        ⟨"Wait", "No clear signal (risk " ++ toString r ++ ", expected " ++ toString roi_pct ++ "%)."⟩)
  | _, _ => Option.none

/-! ## Embedding of `src/Server/ts_forecast.py`

The HPI series is a list of `(quarter index, value)` pairs; the quarter
index `year*4 + quarter` stands for the quarter-end timestamp produced by
`to_period('Q').to_timestamp('Q')`, and `pd.offsets.QuarterEnd()` applied
to a quarter-end date advances the index by 1. -/

/-- An opaque fitted ARIMA result (`_model_fit`).  `get_forecast(steps)`
of statsmodels always yields `steps` point estimates; that library
guarantee is recorded in `predict_length`. -/
structure FittedModel where
  predict : ℕ → List ℚ
  confInt : ℕ → List (ℚ × ℚ)
  predict_length : ∀ n, (predict n).length = n

/-- The process-wide state of the forecast engine: the globals
`_hpi_series` and `_model_fit` of `ts_forecast.py`. -/
structure TSState where
  hpi_series : Option (List (ℤ × ℚ))
  model_fit : Option FittedModel

/-- Exceptions that can escape `forecast_hpi`: the explicit
`RuntimeError("HPI series not loaded...")` and the `IndexError` raised by
`iloc[-1]` / `index[-1]` on an empty series. -/
inductive FcError where
  | notLoaded
  | indexError
deriving DecidableEq

/-- `forecast_hpi` (`src/Server/ts_forecast.py`, lines 96-132).  Returns
the forecast series (timestamp, point estimate) and the confidence
intervals (`None` on the naive fallback path). -/
def forecast_hpi (st : TSState) (steps : ℕ) :
    Except FcError (List (ℤ × ℚ) × Option (List (ℚ × ℚ))) :=
  match st.hpi_series with
  | Option.none => .error .notLoaded
  | some ts =>
    match st.model_fit with
    | some m =>
      -- Fitted state: model forecast plus confidence bounds.
      let forecast := m.predict steps
      let conf_int := m.confInt steps
      match ts.getLast? with
      | Option.none => .error .indexError     -- `_hpi_series.index[-1]` on empty
      | some lastP =>
        let forecast_index := (List.range steps).map (fun (i : ℕ) => lastP.1 + 1 + (i : ℤ))
        .ok (forecast_index.zip forecast, some conf_int)
    | Option.none =>
      -- Degraded state: naive fallback repeating the last observed value.
      match ts.getLast? with
      | Option.none => .error .indexError     -- `_hpi_series.iloc[-1]` on empty
      | some lastP =>
        let forecast := List.replicate steps lastP.2
        let forecast_index := (List.range steps).map (fun (i : ℕ) => lastP.1 + 1 + (i : ℤ))
        .ok (forecast_index.zip forecast, Option.none)

/-- `Series.pct_change().dropna()`: quarter-over-quarter fractional changes
of consecutive values (the leading `NaN` is dropped). -/
def pctChangesAux : ℚ → List ℚ → List ℚ
  | _, [] => []
  | prev, y :: ys => (y / prev - 1) :: pctChangesAux y ys

/-- See `pctChangesAux`. -/
def pctChanges : List ℚ → List ℚ
  | [] => []
  | x :: xs => pctChangesAux x xs

/-- Sample variance with `ddof = 1` (the pandas `Series.std` default),
meaningful for lists of length ≥ 2. -/
def sampleVar (xs : List ℚ) : ℚ :=
  let n : ℚ := xs.length
  let mean := xs.sum / n
  (xs.map (fun x => (x - mean) ^ 2)).sum / (n - 1)

/-- The float value `float(returns.std())`: `nan` when pandas returns NaN
(fewer than two samples under `ddof = 1`), otherwise the square root of
the sample variance, represented symbolically by the variance (so the
embedding stays executable; `stdOfVar v` denotes `√v`). -/
inductive PVol where
  | nan
  | stdOfVar (v : ℚ)
deriving DecidableEq

/-- `Series.std()` (`ddof = 1`): NaN for fewer than two samples. -/
def seriesStd (xs : List ℚ) : PVol :=
  if xs.length ≤ 1 then .nan else .stdOfVar (sampleVar xs)

/-- The Python comparison `volatility < c` for `c ≥ 0`: any comparison
with NaN is `False`, and `√v < c ↔ 0 < c ∧ v < c²` since `v ≥ 0`. -/
def PVol.ltQ : PVol → ℚ → Bool
  | .nan, _ => false
  | .stdOfVar v, c => decide (0 < c) && decide (v < c ^ 2)

/-- The tuple returned by `get_market_forecast_summary`. -/
structure MarketSummary where
  growth_rate : ℚ
  volatility : PVol
  risk_label : String
  forecast : Option (List (ℤ × ℚ))
deriving DecidableEq

/-- The body of the `try:` block of `get_market_forecast_summary`
(lines 147-163); any `.error` is caught by the `except` clause. -/
def summarize_body (st : TSState) (ts : List (ℤ × ℚ)) (steps : ℕ) :
    Except FcError MarketSummary := do
  let (forecast, _) ← forecast_hpi st steps
  let lastHist ← match ts.getLast? with
    | Option.none => Except.error FcError.indexError   -- `iloc[-1]`
    | some p => Except.ok p.2
  let lastFore ← match forecast.getLast? with
    | Option.none => Except.error FcError.indexError   -- `forecast.iloc[-1]`
    | some p => Except.ok p.2
  let growth_rate := if lastHist ≠ 0 then (lastFore - lastHist) / lastHist else 0
  let returns := pctChanges (ts.map (fun p => p.2))
  let volatility := if returns.length > 0 then seriesStd returns else PVol.stdOfVar 0
  let risk := if growth_rate > 1/20 ∧ PVol.ltQ volatility (1/50) then "Low"
    else if growth_rate > -(1/50) then "Moderate"
    else "High"
  .ok ⟨growth_rate, volatility, risk, some forecast⟩

/-- `get_market_forecast_summary` (`src/Server/ts_forecast.py`,
lines 135-167).  Total: the "nothing loaded" early return and the
catch-all `except` both produce the conservative default
`(0.0, 0.0, "Moderate", None)`. -/
def get_market_forecast_summary (st : TSState) (steps : ℕ) : MarketSummary :=
  match st.hpi_series with
  | Option.none => ⟨0, PVol.stdOfVar 0, "Moderate", Option.none⟩
  | some ts =>
    match summarize_body st ts steps with
    | .ok s => s
    | .error _ => ⟨0, PVol.stdOfVar 0, "Moderate", Option.none⟩

/-! ### Series loading -/

/-- A CSV cell after `pd.read_csv` dtype inference: a numeric value, or a
non-numeric text value (on which `astype(float)` raises). -/
inductive Cell where
  | num (q : ℚ)
  | str (s : String)
deriving DecidableEq

/-- A parsed CSV: named columns of equal length. -/
structure Csv where
  cols : List (String × List Cell)

/-- Errors that abort `load_hpi_and_fit`: the missing-file
`FileNotFoundError`, the `KeyError`s for missing date/value columns, and
the `ValueError` of `astype(float)` on non-numeric data. -/
inductive LoadError where
  | sourceNotFound
  | schemaError
  | valueError
deriving DecidableEq

/-- Column lookup, `'name' in df.columns` / `df[name]`. -/
def Csv.col (csv : Csv) (name : String) : Option (List Cell) :=
  (csv.cols.find? (fun c => c.1 = name)).map (fun c => c.2)

/-- Date-column detection (lines 35-42): `Quarter` first, then `Date`. -/
def detectDateCol (csv : Csv) : Option String :=
  if (csv.col "Quarter").isSome then some "Quarter"
  else if (csv.col "Date").isSome then some "Date"
  else Option.none

/-- `pd.api.types.is_numeric_dtype`: the column was inferred numeric,
i.e. every cell is numeric. -/
def isNumericCol (cells : List Cell) : Bool :=
  cells.all (fun c => match c with | .num _ => true | .str _ => false)

/-- Value-column detection (lines 58-68): `ALL`, then `HPI`, then the
first numeric column among the remaining (non-index) columns. -/
def detectHpiCol (cols : List (String × List Cell)) : Option String :=
  if (cols.find? (fun c => c.1 = "ALL")).isSome then some "ALL"
  else if (cols.find? (fun c => c.1 = "HPI")).isSome then some "HPI"
  else (cols.find? (fun c => isNumericCol c.2)).map (fun c => c.1)

/-- `astype(float)` on one cell. -/
def cellFloat : Cell → Option ℚ
  | .num q => some q
  | .str _ => Option.none

/-- Stable insertion into a date-sorted list (models `sort_values`). -/
def insertByDate (p : ℤ × Cell) : List (ℤ × Cell) → List (ℤ × Cell)
  | [] => [p]
  | q :: qs => if p.1 < q.1 then p :: q :: qs else q :: insertByDate p qs

/-- Sort rows ascending by parsed date. -/
def sortByDate : List (ℤ × Cell) → List (ℤ × Cell)
  | [] => []
  | p :: ps => insertByDate p (sortByDate ps)

/-- Month-abbreviation lookup for the `%b-%y` date format. -/
def monthOfAbbrev (s : String) : Option ℕ :=
  if s = "Jan" then some 1 else if s = "Feb" then some 2
  else if s = "Mar" then some 3 else if s = "Apr" then some 4
  else if s = "May" then some 5 else if s = "Jun" then some 6
  else if s = "Jul" then some 7 else if s = "Aug" then some 8
  else if s = "Sep" then some 9 else if s = "Oct" then some 10
  else if s = "Nov" then some 11 else if s = "Dec" then some 12
  else Option.none

/-- Split a character list at `'-'` separators. -/
def splitDash : List Char → List Char → List (List Char)
  | acc, [] => [acc.reverse]
  | acc, c :: cs => if c = '-' then acc.reverse :: splitDash [] cs else splitDash (c :: acc) cs

/-- Decimal digit-string to number. -/
def digitsToNatAux : ℕ → List Char → Option ℕ
  | acc, [] => some acc
  | acc, c :: cs =>
    if c.isDigit then digitsToNatAux (acc * 10 + (c.toNat - 48)) cs else Option.none

/-- See `digitsToNatAux`; empty input is not a number. -/
def digitsToNat : List Char → Option ℕ
  | [] => Option.none
  | c :: cs => digitsToNatAux 0 (c :: cs)

/-- A concrete date parser for the primary `%b-%y` format (e.g. `Mar-17`),
returning the quarter index that `to_period('Q')` assigns (pandas `%y`
maps 00-68 to 2000-2068 and 69-99 to 1969-1999); unparseable cells give
`Option.none` (they become `NaT` and the row is dropped). -/
def parseMonYY (c : Cell) : Option ℤ :=
  match c with
  | .num _ => Option.none
  | .str s =>
    match splitDash [] (strTrim s).data with
    | [m, y] =>
      match monthOfAbbrev ⟨m⟩, digitsToNat y with
      | some mo, some yr =>
        let year := if yr ≤ 68 then 2000 + yr else if yr ≤ 99 then 1900 + yr else yr
        some ((year : ℤ) * 4 + ((mo - 1) / 3 : ℕ))
      | _, _ => Option.none
    | _ => Option.none

/-- The dataframe columns left after `set_index(date_col)`. -/
def nonIndexCols (csv : Csv) (dcol : String) : List (String × List Cell) :=
  csv.cols.filter (fun c => c.1 ≠ dcol)

/-- Rows of (parsed date, value cell): parse the date column, drop rows
with unparseable dates (`dropna(subset=[date_col])`), sort by date. -/
def parsedRows (parseDate : Cell → Option ℤ) (csv : Csv) (dcol hcol : String) :
    List (ℤ × Cell) :=
  let dateCells := (csv.col dcol).getD []
  let valCells := (((nonIndexCols csv dcol).find? (fun c => c.1 = hcol)).map
    (fun c => c.2)).getD []
  sortByDate ((dateCells.zip valCells).filterMap
    (fun dv => (parseDate dv.1).map (fun d => (d, dv.2))))

/-- `df[hpi_col].astype(float)` over the kept rows: the series as
(date, float value) pairs, or `Option.none` if a cell is non-numeric. -/
def seriesVals (parseDate : Cell → Option ℤ) (csv : Csv) (dcol hcol : String) :
    Option (List (ℤ × ℚ)) :=
  let sorted := parsedRows parseDate csv dcol hcol
  ((sorted.map (fun p => p.2)).mapM cellFloat).map
    (fun vals => (sorted.map (fun p => p.1)).zip vals)

/-- `load_hpi_and_fit` (`src/Server/ts_forecast.py`, lines 18-93) as a
state transformer.  `src = Option.none` models a missing file.  The
two-stage `pd.to_datetime` pipeline is abstracted by the `parseDate`
argument (rows it cannot parse are dropped), and the whole
`statsmodels` fitting step — including `_HAS_ARIMA` being false and the
`try/except` around `model.fit()` — by `fitFn` (`Option.none` = Degraded).
The pair result carries the final global state, including on error: every
failure is raised before line 70, the first assignment to a global, and
the two global mutations (series at line 70, model at lines 79-90) happen
only on the success path. -/
def load_hpi_and_fit (parseDate : Cell → Option ℤ)
    (fitFn : List (ℤ × ℚ) → Option FittedModel)
    (src : Option Csv) (st : TSState) : Except LoadError Unit × TSState :=
  match src with
  | Option.none => (.error .sourceNotFound, st)          -- os.path.exists failed
  | some csv =>
    match detectDateCol csv with
    | Option.none => (.error .schemaError, st)           -- KeyError (date column)
    | some dcol =>
      match detectHpiCol (nonIndexCols csv dcol) with
      | Option.none => (.error .schemaError, st)         -- KeyError (value column)
      | some hcol =>
        match seriesVals parseDate csv dcol hcol with
        | Option.none => (.error .valueError, st)        -- astype(float) raised
        | some series =>
          -- line 70: the first global mutation
          let st1 : TSState := ⟨some series, st.model_fit⟩
          -- lines 79-90: fit attempt, never raises
          let st2 : TSState := ⟨st1.hpi_series, fitFn series⟩
          (.ok (), st2)

/-! ## Helper lemmas -/

theorem npClip_mono {a b lo hi : ℚ} (hb : lo ≤ hi) (h : a ≤ b) :
    npClip a lo hi ≤ npClip b lo hi := by
  unfold npClip
  split_ifs <;> linarith

theorem npClip_eq_self {x lo hi : ℚ} (h1 : lo ≤ x) (h2 : x ≤ hi) : npClip x lo hi = x := by
  unfold npClip
  split_ifs <;> first | rfl | linarith

theorem roundHalfEven_mono {q r : ℚ} (h : q ≤ r) : roundHalfEven q ≤ roundHalfEven r := by
  unfold roundHalfEven
  simp only [ratFloor_eq_floor]
  have hf : ⌊q⌋ ≤ ⌊r⌋ := Int.floor_mono h
  rcases lt_or_eq_of_le hf with hlt | heq
  · split_ifs <;> omega
  · rw [← heq]
    split_ifs <;> first | omega | linarith

theorem pyRound2_mono {q r : ℚ} (h : q ≤ r) : pyRound2 q ≤ pyRound2 r := by
  unfold pyRound2
  have h1 : roundHalfEven (q * 100) ≤ roundHalfEven (r * 100) :=
    roundHalfEven_mono (by linarith)
  have h2 : ((roundHalfEven (q * 100) : ℤ) : ℚ) ≤ ((roundHalfEven (r * 100) : ℤ) : ℚ) := by
    exact_mod_cast h1
  linarith

/-- The composite score of `analyzeRiskNum`, written out. -/
theorem analyzeRiskNum_score_eq (cp : PyNum) (gr vol : ℚ) (lbl : Option String) (s loc : ℚ) :
    (analyzeRiskNum cp gr vol lbl s loc).score =
      npClip (pyRound2 (npClip ((vol * 100 * 1.5 - gr * 100 * 0.8) * (1.2 - loc)) 0 100 * 0.70
        + npClip (100 - s) 0 100 * 0.20
        + npClip ((pyFloat (pyOr cp 0)).getD 0 / 200 * 100) 0 100 * 0.10)) 0 100 := rfl

/-- The defensive price coercion is the identity on actual numbers. -/
theorem cpVal_num (q : ℚ) : (pyFloat (pyOr (.num q) 0)).getD 0 = q := by
  by_cases h : q = 0 <;> simp [pyOr, pyTruthy, pyFloat, h]

/-- On all-numeric inputs `analyze_risk` succeeds, with the falsy
`sentiment_score or 50.0` coercion applied. -/
theorem analyze_risk_num_eq (cp : PyNum) (gr vol : ℚ) (lbl : Option String) (s loc : ℚ) :
    analyze_risk cp (.num gr) (.num vol) lbl (.num s) (.num loc)
      = some (analyzeRiskNum cp gr vol lbl (if s = 0 then 50 else s) loc) := by
  by_cases h : s = 0 <;> simp [analyze_risk, pyOr, pyTruthy, pyFloat, h]

theorem score_mono_vol {vol vol' gr s loc : ℚ} {cp : PyNum} {lbl : Option String}
    (hloc : loc ≤ 1.2) (hv : vol ≤ vol') :
    (analyzeRiskNum cp gr vol lbl s loc).score ≤ (analyzeRiskNum cp gr vol' lbl s loc).score := by
  rw [analyzeRiskNum_score_eq, analyzeRiskNum_score_eq]
  apply npClip_mono (by norm_num)
  apply pyRound2_mono
  have hm : npClip ((vol * 100 * 1.5 - gr * 100 * 0.8) * (1.2 - loc)) 0 100
      ≤ npClip ((vol' * 100 * 1.5 - gr * 100 * 0.8) * (1.2 - loc)) 0 100 := by
    apply npClip_mono (by norm_num)
    apply mul_le_mul_of_nonneg_right (by linarith) (by linarith)
  linarith

theorem score_antitone_gr {vol gr gr' s loc : ℚ} {cp : PyNum} {lbl : Option String}
    (hloc : loc ≤ 1.2) (hg : gr ≤ gr') :
    (analyzeRiskNum cp gr' vol lbl s loc).score ≤ (analyzeRiskNum cp gr vol lbl s loc).score := by
  rw [analyzeRiskNum_score_eq, analyzeRiskNum_score_eq]
  apply npClip_mono (by norm_num)
  apply pyRound2_mono
  have hm : npClip ((vol * 100 * 1.5 - gr' * 100 * 0.8) * (1.2 - loc)) 0 100
      ≤ npClip ((vol * 100 * 1.5 - gr * 100 * 0.8) * (1.2 - loc)) 0 100 := by
    apply npClip_mono (by norm_num)
    apply mul_le_mul_of_nonneg_right (by linarith) (by linarith)
  linarith

theorem score_antitone_s {vol gr s s' loc : ℚ} {cp : PyNum} {lbl : Option String}
    (hs : s ≤ s') :
    (analyzeRiskNum cp gr vol lbl s' loc).score ≤ (analyzeRiskNum cp gr vol lbl s loc).score := by
  rw [analyzeRiskNum_score_eq, analyzeRiskNum_score_eq]
  apply npClip_mono (by norm_num)
  apply pyRound2_mono
  have hm : npClip (100 - s') 0 100 ≤ npClip (100 - s) 0 100 := npClip_mono (by norm_num) (by linarith)
  linarith

theorem score_mono_cp {vol gr s loc cp cp' : ℚ} {lbl : Option String}
    (hc : cp ≤ cp') :
    (analyzeRiskNum (.num cp) gr vol lbl s loc).score
      ≤ (analyzeRiskNum (.num cp') gr vol lbl s loc).score := by
  rw [analyzeRiskNum_score_eq, analyzeRiskNum_score_eq, cpVal_num, cpVal_num]
  apply npClip_mono (by norm_num)
  apply pyRound2_mono
  have hm : npClip (cp / 200 * 100) 0 100 ≤ npClip (cp' / 200 * 100) 0 100 :=
    npClip_mono (by norm_num) (by linarith)
  linarith

/-! ## Claims about the Composite Risk Scorer and Prescription Engine -/

/-- C1 counterexample: on Scenario B's inputs (growth −3%, volatility 4%,
"Negative"/25 sentiment, price 150, location factor 0.9) the code yields a
composite score of 24.26 and level "Low" — not a score ≥ 60 with level
"High" as the claim states (the 0.9 location factor leaves only a 0.3
multiplier on the market component). -/
theorem scenarioB_counterexample :
    (analyze_risk (.num 150) (.num (-3/100)) (.num (4/100)) (some "Negative")
        (.num 25) (.num (9/10))).map (fun r => (r.score, r.level))
      = some (1213/50, "Low")
    ∧ ¬((60 : ℚ) ≤ 1213/50) := by
  constructor
  · simp only [analyze_risk, analyzeRiskNum, pyFloat, pyOr, pyTruthy, pyOrStr,
      npClip, pyRound2, roundHalfEven, ratFloor_eq_floor, Option.map]
    norm_num
  · norm_num

/-- C1 (amended): on Scenario B's inputs `analyze_risk` returns composite
score 24.26 with level "Low", and `get_prescription` at that score with
growth −3% (roi −3%) returns action "Sell". -/
theorem scenarioB_actual :
    (analyze_risk (.num 150) (.num (-3/100)) (.num (4/100)) (some "Negative")
        (.num 25) (.num (9/10))).map (fun r => (r.score, r.level))
      = some (1213/50, "Low")
    ∧ (get_prescription (.num (1213/50)) (.num (-3/100))).map Prescription.action
      = some "Sell" := by
  constructor
  · simp only [analyze_risk, analyzeRiskNum, pyFloat, pyOr, pyTruthy, pyOrStr,
      npClip, pyRound2, roundHalfEven, ratFloor_eq_floor, Option.map]
    norm_num
  · simp only [get_prescription, pyFloat, pyRound2, roundHalfEven, ratFloor_eq_floor,
      Option.map]
    norm_num

/-- C2 counterexample: with the documented input sentiment_score = 0 the
reported `sentiment_numeric_risk` is 50 (the falsy score is replaced by
the 50.0 default), not 100 − 0 = 100. -/
theorem sentiment_risk_zero_counterexample :
    (analyze_risk (.num 100) (.num 0) (.num 0) Option.none (.num 0) (.num 1)).map
        (fun r => r.debug.sentiment_numeric_risk) = some 50
    ∧ ¬((50 : ℚ) = 100 - 0) := by
  constructor
  · simp only [analyze_risk, analyzeRiskNum, pyFloat, pyOr, pyTruthy, pyOrStr,
      npClip, Option.map]
    norm_num
  · norm_num

/-- C2 (amended): for every sentiment_score in (0, 100] — i.e. excluding
the falsy value 0, which the `or 50.0` default rewrites to 50 — the
sentiment sub-score `sentiment_numeric_risk` equals exactly
100 − sentiment_score, whatever the other (numeric) arguments are. -/
theorem sentiment_risk_exact (cp gr vol s loc : ℚ) (lbl : Option String)
    (h0 : 0 < s) (h1 : s ≤ 100) :
    (analyze_risk (.num cp) (.num gr) (.num vol) lbl (.num s) (.num loc)).map
      (fun r => r.debug.sentiment_numeric_risk) = some (100 - s) := by
  rw [analyze_risk_num_eq, if_neg (ne_of_gt h0)]
  have hd : (analyzeRiskNum (.num cp) gr vol lbl s loc).debug.sentiment_numeric_risk
      = npClip (100 - s) 0 100 := rfl
  simp only [Option.map_some', hd]
  rw [npClip_eq_self (by linarith) (by linarith)]

/-- C2 witness: at sentiment_score = 25 the sub-score is 75. -/
theorem sentiment_risk_exact_witness :
    (analyze_risk (.num 1) (.num 0) (.num 0) Option.none (.num 25) (.num 1)).map
      (fun r => r.debug.sentiment_numeric_risk) = some 75 :=
  (sentiment_risk_exact 1 0 0 25 1 Option.none (by norm_num) (by norm_num)).trans
    (by norm_num)

/-- C3 counterexample: a non-numeric growth_rate makes `analyze_risk`
raise (`float(growth_rate)` is unprotected), and a non-numeric risk_score
makes `get_prescription` raise — neither is coerced to a safe default. -/
theorem totality_counterexample :
    analyze_risk (.num 0) (.nonNum true) (.num 0) Option.none (.num 50) (.num 1)
      = Option.none
    ∧ get_prescription (.nonNum true) (.num (1/20)) = Option.none := ⟨rfl, rfl⟩

/-- C3 (amended): `analyze_risk` and `get_prescription` are total on
numeric growth/volatility/sentiment/location/risk arguments, and
`analyze_risk` additionally tolerates an arbitrary (even malformed)
current_price, which alone is defensively coerced (to 0.0 on failure);
non-numeric values of the other numeric arguments raise. -/
theorem analyze_risk_total_numeric (cp : PyNum) (lbl : Option String)
    (gr vol s loc rsk g : ℚ) :
    (analyze_risk cp (.num gr) (.num vol) lbl (.num s) (.num loc)).isSome = true
    ∧ (get_prescription (.num rsk) (.num g)).isSome = true := by
  constructor
  · rw [analyze_risk_num_eq]; rfl
  · rfl

/-- C4 counterexample: with location_factor = 1.3 (> 1.2, documented only
as "> 1 safer") raising volatility from 0 to 0.1 lowers the score from
15.6 to 14.55, and with all else neutral raising sentiment_score from 0
to 10 raises the score from 10 to 18 (the falsy 0 is replaced by 50). -/
theorem monotonicity_counterexample :
    ((analyze_risk (.num 0) (.num 1) (.num 0) Option.none (.num 50) (.num (13/10))).map
        (fun r => r.score) = some (78/5))
    ∧ ((analyze_risk (.num 0) (.num 1) (.num (1/10)) Option.none (.num 50) (.num (13/10))).map
        (fun r => r.score) = some (291/20))
    ∧ ¬((78/5 : ℚ) ≤ 291/20)
    ∧ ((analyze_risk (.num 0) (.num 0) (.num 0) Option.none (.num 0) (.num 1)).map
        (fun r => r.score) = some 10)
    ∧ ((analyze_risk (.num 0) (.num 0) (.num 0) Option.none (.num 10) (.num 1)).map
        (fun r => r.score) = some 18)
    ∧ ¬((18 : ℚ) ≤ 10) := by
  refine ⟨?_, ?_, by norm_num, ?_, ?_, by norm_num⟩ <;>
    · simp only [analyze_risk, analyzeRiskNum, pyFloat, pyOr, pyTruthy, pyOrStr,
        npClip, pyRound2, roundHalfEven, ratFloor_eq_floor, Option.map]
      norm_num

/-- C4 (amended): the composite score is monotonically non-decreasing in
volatility and non-increasing in growth_rate provided
location_factor ≤ 1.2 (beyond 1.2 the multiplier `1.2 − location_factor`
turns negative and both directions flip); it is non-decreasing in
current_price unconditionally; and it is non-increasing in
sentiment_score on the positive scores (sentiment_score = 0 is falsy and
is replaced by the neutral 50). -/
theorem score_monotonicity (cp cp' gr gr' vol vol' s s' loc : ℚ) (lbl : Option String) :
    (∀ r r', vol ≤ vol' → loc ≤ 1.2 →
      analyze_risk (.num cp) (.num gr) (.num vol) lbl (.num s) (.num loc) = some r →
      analyze_risk (.num cp) (.num gr) (.num vol') lbl (.num s) (.num loc) = some r' →
      r.score ≤ r'.score)
    ∧ (∀ r r', cp ≤ cp' →
      analyze_risk (.num cp) (.num gr) (.num vol) lbl (.num s) (.num loc) = some r →
      analyze_risk (.num cp') (.num gr) (.num vol) lbl (.num s) (.num loc) = some r' →
      r.score ≤ r'.score)
    ∧ (∀ r r', gr ≤ gr' → loc ≤ 1.2 →
      analyze_risk (.num cp) (.num gr) (.num vol) lbl (.num s) (.num loc) = some r →
      analyze_risk (.num cp) (.num gr') (.num vol) lbl (.num s) (.num loc) = some r' →
      r'.score ≤ r.score)
    ∧ (∀ r r', 0 < s → s ≤ s' →
      analyze_risk (.num cp) (.num gr) (.num vol) lbl (.num s) (.num loc) = some r →
      analyze_risk (.num cp) (.num gr) (.num vol) lbl (.num s') (.num loc) = some r' →
      r'.score ≤ r.score) := by
  refine ⟨?_, ?_, ?_, ?_⟩
  · intro r r' hv hloc e1 e2
    rw [analyze_risk_num_eq] at e1 e2
    cases Option.some.inj e1
    cases Option.some.inj e2
    exact score_mono_vol hloc hv
  · intro r r' hc e1 e2
    rw [analyze_risk_num_eq] at e1 e2
    cases Option.some.inj e1
    cases Option.some.inj e2
    exact score_mono_cp hc
  · intro r r' hg hloc e1 e2
    rw [analyze_risk_num_eq] at e1 e2
    cases Option.some.inj e1
    cases Option.some.inj e2
    exact score_antitone_gr hloc hg
  · intro r r' h0 hs e1 e2
    rw [analyze_risk_num_eq, if_neg (ne_of_gt h0)] at e1
    rw [analyze_risk_num_eq, if_neg (ne_of_gt (lt_of_lt_of_le h0 hs))] at e2
    cases Option.some.inj e1
    cases Option.some.inj e2
    exact score_antitone_s hs

/-- C4 witness: raising volatility from 0 to 0.1 at location factor 1
does not lower the score. -/
theorem score_monotonicity_witness :
    (analyzeRiskNum (.num 0) 0 0 Option.none 50 1).score
      ≤ (analyzeRiskNum (.num 0) 0 (1/10) Option.none 50 1).score := by
  have h1 : analyze_risk (.num 0) (.num 0) (.num 0) Option.none (.num 50) (.num 1)
      = some (analyzeRiskNum (.num 0) 0 0 Option.none 50 1) := by
    rw [analyze_risk_num_eq]; norm_num
  have h2 : analyze_risk (.num 0) (.num 0) (.num (1/10)) Option.none (.num 50) (.num 1)
      = some (analyzeRiskNum (.num 0) 0 (1/10) Option.none 50 1) := by
    rw [analyze_risk_num_eq]; norm_num
  exact (score_monotonicity 0 0 0 0 0 (1/10) 50 50 1 Option.none).1 _ _
    (by norm_num) (by norm_num) h1 h2

/-- C10: falsy sentiment inputs get the neutral defaults — a `None` or
empty sentiment_label is tiered exactly as "Neutral" (identical score,
level and sentiment tier), and a sentiment_score of 0 or `None` is
replaced by 50.0, so the sentiment sub-score is 50.0 rather than 100.0. -/
theorem falsy_sentiment_defaults (cp gr vol s loc : ℚ) (lbl : Option String) (ss : PyNum)
    (hl : lbl = Option.none ∨ lbl = some "") (hs : ss = .num 0 ∨ ss = .noneV) :
    ((analyze_risk (.num cp) (.num gr) (.num vol) lbl (.num s) (.num loc)).map
        (fun r => (r.score, r.level, r.debug.sentiment_risk_level))
      = (analyze_risk (.num cp) (.num gr) (.num vol) (some "Neutral") (.num s) (.num loc)).map
        (fun r => (r.score, r.level, r.debug.sentiment_risk_level)))
    ∧ ((analyze_risk (.num cp) (.num gr) (.num vol) lbl ss (.num loc)).map
        (fun r => (r.debug.sentiment_score, r.debug.sentiment_numeric_risk)) = some (50, 50)) := by
  constructor
  · rcases hl with h | h <;> subst h <;>
      · rw [analyze_risk_num_eq, analyze_risk_num_eq]; rfl
  · rcases hl with h | h <;> rcases hs with h2 | h2 <;> subst h <;> subst h2 <;>
      · simp only [analyze_risk, pyFloat, pyOr, pyTruthy, Option.map]
        norm_num [analyzeRiskNum, npClip]

/-- C10 witness: sentiment_score = 0 with a `None` label gives sentiment
sub-score 50. -/
theorem falsy_sentiment_defaults_witness :
    (analyze_risk (.num 1) (.num 0) (.num 0) Option.none (.num 0) (.num 1)).map
      (fun r => (r.debug.sentiment_score, r.debug.sentiment_numeric_risk)) = some (50, 50) :=
  (falsy_sentiment_defaults 1 0 0 0 1 Option.none (.num 0) (Or.inl rfl) (Or.inl rfl)).2

/-! ## Claims about the Forecast Engine and Market Summary -/

/-- `Except` success test. -/
def exOk {ε α : Type} : Except ε α → Bool
  | .ok _ => true
  | .error _ => false

theorem zip_map_replicate {α β γ : Type} (l : List α) (f : α → β) (v : γ) :
    (l.map f).zip (List.replicate l.length v) = l.map (fun a => (f a, v)) := by
  induction l with
  | nil => rfl
  | cons a l ih => simp [List.replicate_succ, ih]

theorem range_zip_replicate {β γ : Type} (n : ℕ) (f : ℕ → β) (v : γ) :
    ((List.range n).map f).zip (List.replicate n v) = (List.range n).map (fun i => (f i, v)) := by
  have h := zip_map_replicate (List.range n) f v
  simpa [List.length_range] using h

/-- C5 (code bug): a series of exactly 2 points yields exactly one
quarter-over-quarter change, and `returns.std()` (pandas, `ddof = 1`) of
that single sample is NaN; the `len(returns) > 0` guard does not catch
this case, so the summary's volatility is NaN, not the 0.0 the
specification promises for "fewer than 2 changes".  (A 1-point series,
with zero changes, does get the 0.0 default.) -/
theorem volatility_two_point_nan :
    (pctChanges [(100 : ℚ), 110]).length = 1
    ∧ (get_market_forecast_summary ⟨some [(8068, 100), (8069, 110)], Option.none⟩ 4).volatility
      = PVol.nan
    ∧ PVol.nan ≠ PVol.stdOfVar 0
    ∧ (get_market_forecast_summary ⟨some [(8068, 100)], Option.none⟩ 4).volatility
      = PVol.stdOfVar 0 :=
  ⟨rfl, rfl, fun h => PVol.noConfusion h, rfl⟩

/-- C6 counterexample: a load whose date cells all fail to parse (two
garbage `Date` strings here, under the real `%b-%y` parser) succeeds and
commits an *empty* series; `forecast_hpi` on that successfully loaded
state then raises `IndexError` (from `iloc[-1]`), so it does not "return
a forecast without raising" for every successfully loaded series. -/
theorem forecast_empty_series_counterexample :
    load_hpi_and_fit parseMonYY (fun _ => Option.none)
        (some ⟨[("Date", [.str "hello", .str "world"]), ("HPI", [.num 100, .num 101])]⟩)
        ⟨Option.none, Option.none⟩
      = (.ok (), ⟨some [], Option.none⟩)
    ∧ forecast_hpi ⟨some [], Option.none⟩ 4 = .error .indexError
    ∧ FcError.indexError ≠ FcError.notLoaded :=
  ⟨rfl, rfl, fun h => FcError.noConfusion h⟩

/-- C6 (amended): `forecast_hpi` fails with the not-loaded `RuntimeError`
exactly when no series is cached, and for every loaded *non-empty* series
it returns a forecast without raising, in the Fitted and in the Degraded
state alike. -/
theorem forecast_notloaded_iff :
    (∀ (st : TSState) (steps : ℕ),
      forecast_hpi st steps = .error .notLoaded ↔ st.hpi_series = Option.none)
    ∧ (∀ (st : TSState) (ts : List (ℤ × ℚ)) (steps : ℕ),
      st.hpi_series = some ts → ts ≠ [] → exOk (forecast_hpi st steps) = true) := by
  constructor
  · intro st steps
    rcases st with ⟨hs, mf⟩
    cases hs with
    | none => simp [forecast_hpi]
    | some ts =>
      cases mf <;> rcases hlast : ts.getLast? with _ | p <;>
        simp [forecast_hpi, hlast]
  · intro st ts steps h hne
    rcases st with ⟨hs, mf⟩
    cases h
    have hsome : ts.getLast?.isSome := by
      rw [List.getLast?_isSome]
      exact hne
    rcases Option.isSome_iff_exists.mp hsome with ⟨p, hp⟩
    cases mf <;> simp [forecast_hpi, hp, exOk]

/-- C6 witness: a loaded one-point series forecasts without error, and the
never-loaded state fails with the not-loaded error. -/
theorem forecast_notloaded_iff_witness :
    exOk (forecast_hpi ⟨some [((8068 : ℤ), (100 : ℚ))], Option.none⟩ 3) = true
    ∧ forecast_hpi ⟨Option.none, Option.none⟩ 3 = .error .notLoaded := by
  constructor
  · exact forecast_notloaded_iff.2 ⟨some [(8068, 100)], Option.none⟩ [(8068, 100)] 3 rfl
      (by simp)
  · exact (forecast_notloaded_iff.1 ⟨Option.none, Option.none⟩ 3).mpr rfl

/-- C7: in the Degraded state (`_model_fit is None`), for every loaded
non-empty series and steps ≥ 1, the forecast is exactly `steps` points,
each carrying the last observed value, with no confidence bounds, indexed
by consecutive quarters starting the quarter after the last historical
one (hence strictly increasing and quarter-spaced). -/
theorem degraded_forecast_spec (ts : List (ℤ × ℚ)) (steps : ℕ) (lastP : ℤ × ℚ)
    (hlast : ts.getLast? = some lastP) (hsteps : 1 ≤ steps) :
    forecast_hpi ⟨some ts, Option.none⟩ steps
      = .ok ((List.range steps).map (fun (i : ℕ) => (lastP.1 + 1 + (i : ℤ), lastP.2)), Option.none)
    ∧ ((List.range steps).map (fun (i : ℕ) => (lastP.1 + 1 + (i : ℤ), lastP.2))).length = steps
    ∧ (∀ i, i < steps →
        ((List.range steps).map (fun (i : ℕ) => (lastP.1 + 1 + (i : ℤ), lastP.2)))[i]?
          = some (lastP.1 + 1 + (i : ℤ), lastP.2)) := by
  refine ⟨?_, by simp, ?_⟩
  · simp only [forecast_hpi, hlast]
    rw [range_zip_replicate]
  · intro i hi
    simp [List.getElem?_map, List.getElem?_range, hi]

/-- C7 witness: a degraded one-point series at 7, forecast 2 steps ahead. -/
theorem degraded_forecast_spec_witness :
    forecast_hpi ⟨some [((8068 : ℤ), (7 : ℚ))], Option.none⟩ 2
      = .ok ([(8069, 7), (8070, 7)], Option.none) := by
  have h := (degraded_forecast_spec [((8068 : ℤ), (7 : ℚ))] 2 (8068, 7) rfl
    (by norm_num)).1
  rw [h]
  rfl

/-- C8: `get_market_forecast_summary` never propagates: with no series
loaded it returns the conservative default (growth 0.0, volatility 0.0,
"Moderate", no forecast), and any exception inside the derivation body is
caught and collapsed to that same default. -/
theorem summary_safe_default :
    (∀ (mf : Option FittedModel) (steps : ℕ),
      get_market_forecast_summary ⟨Option.none, mf⟩ steps
        = ⟨0, PVol.stdOfVar 0, "Moderate", Option.none⟩)
    ∧ (∀ (st : TSState) (ts : List (ℤ × ℚ)) (steps : ℕ) (e : FcError),
      st.hpi_series = some ts → summarize_body st ts steps = .error e →
      get_market_forecast_summary st steps
        = ⟨0, PVol.stdOfVar 0, "Moderate", Option.none⟩) := by
  constructor
  · intro mf steps
    rfl
  · intro st ts steps e h he
    rcases st with ⟨hs, mf⟩
    cases h
    simp [get_market_forecast_summary, he]

/-- C8 witness: the summary of a loaded-but-empty series (whose body
raises `IndexError`) is the safe default. -/
theorem summary_safe_default_witness :
    get_market_forecast_summary ⟨some [], Option.none⟩ 4
      = ⟨0, PVol.stdOfVar 0, "Moderate", Option.none⟩ :=
  summary_safe_default.2 ⟨some [], Option.none⟩ [] 4 .indexError rfl rfl

/-- C9: when `load_hpi_and_fit` fails — missing source, missing date or
value column, or unconvertible values — the cached series and fitted
model are left exactly as they were: no partial state is committed. -/
theorem load_error_preserves_state (parseDate : Cell → Option ℤ)
    (fitFn : List (ℤ × ℚ) → Option FittedModel) (src : Option Csv) (st : TSState)
    (e : LoadError) (h : (load_hpi_and_fit parseDate fitFn src st).1 = .error e) :
    (load_hpi_and_fit parseDate fitFn src st).2 = st := by
  rcases src with _ | csv
  · rfl
  · rcases hd : detectDateCol csv with _ | dcol
    · simp [load_hpi_and_fit, hd]
    · rcases hh : detectHpiCol (nonIndexCols csv dcol) with _ | hcol
      · simp [load_hpi_and_fit, hd, hh]
      · rcases hm : seriesVals parseDate csv dcol hcol with _ | series
        · simp [load_hpi_and_fit, hd, hh, hm]
        · simp [load_hpi_and_fit, hd, hh, hm] at h

/-- C9 witness: a load against a missing file leaves a previously loaded
state untouched. -/
theorem load_error_preserves_state_witness :
    (load_hpi_and_fit parseMonYY (fun _ => Option.none) Option.none
        ⟨some [((8068 : ℤ), (100 : ℚ))], Option.none⟩).2
      = ⟨some [((8068 : ℤ), (100 : ℚ))], Option.none⟩ :=
  load_error_preserves_state parseMonYY (fun _ => Option.none) Option.none
    ⟨some [(8068, 100)], Option.none⟩ .sourceNotFound rfl
